import Mathlib

/-!
Shallow embedding of cluster-autoscaler/cloudprovider/oci/oci_shape.go
(shape resolution for OCI instance pools).

Modelling conventions: a Go pointer field becomes an Option, the float32
resource fields become rationals, the int GPU count becomes an integer,
and a Go nil-pointer dereference (runtime panic) is the nilDeref outcome.
The types of the external oci-go-sdk (core.InstancePool,
core.InstanceConfiguration, core.ComputeInstanceDetails,
core.InstanceConfigurationLaunchInstanceDetails,
core.InstanceConfigurationLaunchInstanceShapeConfigDetails, the catalog
entry core.Shape) are not part of src and are modelled from the fields
the resolver reads.  The two remote operations of the ShapeClient
interface are modelled as deterministic response functions of the request
identifier; the resolver additionally records the list of remote calls it
issues, in order, so that properties about call counts can be stated.
-/

namespace Oci

/-- Resource attributes of a shape (struct Shape, oci_shape.go lines 57-62).
Field order and names follow the source: Name, CPU, GPU, MemoryInBytes. -/
structure Shape where
  Name : String
  CPU : ℚ
  GPU : ℤ
  MemoryInBytes : ℚ
  deriving DecidableEq, Repr

/-- The flexible shape override attached to launch details
(core.InstanceConfigurationLaunchInstanceShapeConfigDetails: pointer
fields Ocpus and MemoryInGBs, read at lines 100-107). -/
structure ShapeConfigDetails where
  Ocpus : Option ℚ
  MemoryInGBs : Option ℚ
  deriving DecidableEq, Repr

/-- Launch details (core.InstanceConfigurationLaunchInstanceDetails):
the resolver reads the pointer fields Shape (the shape name) and
ShapeConfig. -/
structure LaunchInstanceDetails where
  Shape : Option String
  ShapeConfig : Option ShapeConfigDetails
  deriving DecidableEq, Repr

/-- The polymorphic InstanceDetails variant of an instance configuration.
The source performs a runtime type assertion to core.ComputeInstanceDetails
(line 94); every other implementor of the interface is collapsed into the
otherDetails constructor. core.ComputeInstanceDetails carries a pointer
field LaunchDetails. -/
inductive InstanceDetailsVariant where
  | computeInstanceDetails (LaunchDetails : Option LaunchInstanceDetails)
  | otherDetails
  deriving DecidableEq, Repr

/-- The remote instance configuration record (core.InstanceConfiguration):
the resolver reads InstanceDetails (line 90) and CompartmentId (line 110). -/
structure InstanceConfiguration where
  CompartmentId : Option String
  InstanceDetails : Option InstanceDetailsVariant
  deriving DecidableEq, Repr

/-- One catalog entry (core.Shape as listed by ListShapes): pointer fields
Shape (name), Ocpus, MemoryInGBs, Gpus, read at lines 113-123. -/
structure ShapeSummary where
  Shape : Option String
  Ocpus : Option ℚ
  MemoryInGBs : Option ℚ
  Gpus : Option ℤ
  deriving DecidableEq, Repr

/-- The instance pool argument (core.InstancePool): the resolver reads the
pointer fields Id (lines 81, 91, 128, 133) and InstanceConfigurationId
(line 84). -/
structure InstancePool where
  Id : Option String
  InstanceConfigurationId : Option String
  deriving DecidableEq, Repr

/-- The ShapeClient interface (oci_shape.go lines 32-35), modelled as
deterministic response functions: GetInstanceConfiguration keyed by the
InstanceConfigurationId of the request, ListShapes keyed by the
CompartmentId of the request.  An error return carries the Go error
message; the ok return of ListShapes carries the Items of the response. -/
structure ShapeClient where
  GetInstanceConfiguration : Option String → Except String InstanceConfiguration
  ListShapes : Option String → Except String (List ShapeSummary)

/-- The resolver state (struct shapeGetterImpl, lines 72-75): the client
and the cache mapping pool identifiers to shapes.  The Go map is modelled
as an association list. -/
structure ShapeGetterImpl where
  shapeClient : ShapeClient
  cache : List (String × Shape)

/-- createShapeGetter (lines 64-70): a getter with the given client and an
empty cache. -/
def createShapeGetter (shapeClient : ShapeClient) : ShapeGetterImpl :=
  { shapeClient := shapeClient, cache := [] }

/-- Lookup in the association-list model of the Go cache map. -/
def cacheLookup : List (String × Shape) → String → Option Shape
  | [], _ => none
  | (k, v) :: rest, key => if k = key then some v else cacheLookup rest key

/-- A remote call issued by the resolver, with the identifier it was
keyed by (the request field set at line 84 resp. line 110). -/
inductive RemoteCall where
  | getInstanceConfigurationCall (instanceConfigurationId : Option String)
  | listShapesCall (compartmentId : Option String)
  deriving DecidableEq, Repr

/-- Outcome of a resolution: a shape, a Go error (by its message), or a
nil-pointer dereference (runtime panic). -/
inductive Outcome (α : Type) where
  | ok (a : α)
  | err (msg : String)
  | nilDeref
  deriving DecidableEq, Repr

/-- The Go zero value of Shape, built at line 79 (shape := new Shape). -/
def emptyShape : Shape := { Name := "", CPU := 0, GPU := 0, MemoryInBytes := 0 }

/-- Error message of line 91 (instance details unset). -/
def missingConfigurationMsg (poolId : String) : String :=
  "instance configuration details for instance " ++ poolId ++ " has not been set"

/-- Error message of line 128 (not a compute instance configuration). -/
def unsupportedConfigurationMsg (poolId : String) : String :=
  "(compute) instance configuration for instance-pool " ++ poolId ++ " not found"

/-- Error message of line 133 (no shape name resolved). -/
def shapeNotFoundMsg (poolId : String) : String :=
  "shape information for instance-pool " ++ poolId ++ " not found"

/-- The catalog scan of the fixed path (lines 112-125).  Each iteration
dereferences nextShape.Shape and instanceDetails.LaunchDetails.Shape, in
the evaluation order of line 113, with no nil guard; on a name match the
present attribute fields overwrite the accumulator. -/
def scanCatalog (launchDetails : Option LaunchInstanceDetails) :
    List ShapeSummary → Shape → Outcome Shape
  | [], shape => .ok shape
  | nextShape :: rest, shape =>
    match nextShape.Shape with
    | none => .nilDeref
    | some nextName =>
      match launchDetails with
      | none => .nilDeref
      | some ld =>
        match ld.Shape with
        | none => .nilDeref
        | some target =>
          if nextName = target then
            let s1 := { shape with Name := nextName }
            let s2 := match nextShape.Ocpus with
              | some o => { s1 with CPU := o }
              | none => s1
            let s3 := match nextShape.MemoryInGBs with
              | some m => { s2 with MemoryInBytes := m * 1024 * 1024 * 1024 }
              | none => s2
            let s4 := match nextShape.Gpus with
              | some g => { s3 with GPU := g }
              | none => s3
            scanCatalog launchDetails rest s4
          else
            scanCatalog launchDetails rest shape

/-- Result of one call to GetInstancePoolShape: its outcome, the remote
calls issued in order, and the resolver state afterwards. -/
structure ResolveResult where
  outcome : Outcome Shape
  remoteCalls : List RemoteCall
  getterAfter : ShapeGetterImpl

/-- The final name check of lines 131-135: an empty name fails with the
not-found error, otherwise the shape is returned. -/
def finishResolve (poolId : String) (calls : List RemoteCall)
    (osf : ShapeGetterImpl) (shape : Shape) : ResolveResult :=
  if shape.Name = "" then
    { outcome := .err (shapeNotFoundMsg poolId), remoteCalls := calls, getterAfter := osf }
  else
    { outcome := .ok shape, remoteCalls := calls, getterAfter := osf }

/-- The fixed (catalog lookup) branch of lines 108-126.  The error of
ListShapes is discarded by the blank identifier at line 109; on error the
zero-value response carries no items, so the scan runs over an empty
catalog. -/
def fixedPath (osf : ShapeGetterImpl) (poolId : String) (calls : List RemoteCall)
    (compartmentId : Option String)
    (launchDetails : Option LaunchInstanceDetails) : ResolveResult :=
  let calls2 := calls ++ [RemoteCall.listShapesCall compartmentId]
  let items := match osf.shapeClient.ListShapes compartmentId with
    | .ok resp => resp
    | .error _ => []
  match scanCatalog launchDetails items emptyShape with
  | .nilDeref => { outcome := .nilDeref, remoteCalls := calls2, getterAfter := osf }
  | .err e => { outcome := .err e, remoteCalls := calls2, getterAfter := osf }
  | .ok shape => finishResolve poolId calls2 osf shape

/-- GetInstancePoolShape (oci_shape.go lines 77-136).  The log statement at
line 81 dereferences ip.Id unconditionally, so a nil Id panics before any
remote call.  The cache field of the receiver is neither consulted nor
updated anywhere in the source body, so the state after the call always
carries the cache unchanged. -/
def getInstancePoolShape (osf : ShapeGetterImpl) (ip : InstancePool) : ResolveResult :=
  match ip.Id with
  | none => { outcome := .nilDeref, remoteCalls := [], getterAfter := osf }
  | some poolId =>
    let calls1 := [RemoteCall.getInstanceConfigurationCall ip.InstanceConfigurationId]
    match osf.shapeClient.GetInstanceConfiguration ip.InstanceConfigurationId with
    | .error e => { outcome := .err e, remoteCalls := calls1, getterAfter := osf }
    | .ok instanceConfig =>
      match instanceConfig.InstanceDetails with
      | none =>
        { outcome := .err (missingConfigurationMsg poolId),
          remoteCalls := calls1, getterAfter := osf }
      | some InstanceDetailsVariant.otherDetails =>
        { outcome := .err (unsupportedConfigurationMsg poolId),
          remoteCalls := calls1, getterAfter := osf }
      | some (InstanceDetailsVariant.computeInstanceDetails launchDetails) =>
        match launchDetails with
        | some ld =>
          match ld.ShapeConfig with
          | some shapeConfig =>
            let s1 := match ld.Shape with
              | some n => { emptyShape with Name := n }
              | none => emptyShape
            let s2 := match shapeConfig.Ocpus with
              | some o => { s1 with CPU := o, MemoryInBytes := o * 1024 * 1024 * 1024 }
              | none => s1
            let s3 := match shapeConfig.MemoryInGBs with
              | some m => { s2 with MemoryInBytes := m * 1024 * 1024 * 1024 }
              | none => s2
            finishResolve poolId calls1 osf s3
          | none =>
            fixedPath osf poolId calls1 instanceConfig.CompartmentId launchDetails
        | none =>
          fixedPath osf poolId calls1 instanceConfig.CompartmentId launchDetails

/-! Concrete fixtures used by witnesses and counterexamples. -/

/-- A pool with identifier pool-a and configuration reference cfg-a. -/
def poolA : InstancePool := { Id := some "pool-a", InstanceConfigurationId := some "cfg-a" }

/-- Flexible override with OCPU count 4 and no explicit memory. -/
def scFlex4 : ShapeConfigDetails := { Ocpus := some 4, MemoryInGBs := none }

/-- Launch details naming VM.Flex with the override scFlex4. -/
def ldFlex4 : LaunchInstanceDetails := { Shape := some "VM.Flex", ShapeConfig := some scFlex4 }

/-- Compute configuration carrying ldFlex4. -/
def cfgFlex4 : InstanceConfiguration :=
  { CompartmentId := some "comp-a",
    InstanceDetails := some (.computeInstanceDetails (some ldFlex4)) }

/-- Client answering every configuration fetch with cfgFlex4 and every
catalog listing with an empty catalog. -/
def clientFlex4 : ShapeClient :=
  { GetInstanceConfiguration := fun _ => .ok cfgFlex4,
    ListShapes := fun _ => .ok [] }

/-- Getter over clientFlex4 with an empty cache. -/
def gFlex4 : ShapeGetterImpl := createShapeGetter clientFlex4

/-- The shape resolved from cfgFlex4. -/
def shapeFlex4 : Shape :=
  { Name := "VM.Flex", CPU := 4, GPU := 0, MemoryInBytes := 4 * 1024 * 1024 * 1024 }

/-- Override with no OCPU count and no explicit memory. -/
def scNone : ShapeConfigDetails := { Ocpus := none, MemoryInGBs := none }

/-- Launch details with a name and an all-absent override. -/
def ldNameOnly : LaunchInstanceDetails := { Shape := some "VM.N", ShapeConfig := some scNone }

/-- Compute configuration carrying ldNameOnly. -/
def cfgNameOnly : InstanceConfiguration :=
  { CompartmentId := some "comp-a",
    InstanceDetails := some (.computeInstanceDetails (some ldNameOnly)) }

/-- Getter whose configuration fetch yields cfgNameOnly. -/
def gNameOnly : ShapeGetterImpl :=
  createShapeGetter
    { GetInstanceConfiguration := fun _ => .ok cfgNameOnly, ListShapes := fun _ => .ok [] }

/-- Launch details with an empty-string name and an all-absent override. -/
def ldEmptyName : LaunchInstanceDetails := { Shape := some "", ShapeConfig := some scNone }

/-- Compute configuration carrying ldEmptyName. -/
def cfgEmptyName : InstanceConfiguration :=
  { CompartmentId := some "comp-a",
    InstanceDetails := some (.computeInstanceDetails (some ldEmptyName)) }

/-- Getter whose configuration fetch yields cfgEmptyName. -/
def gEmptyName : ShapeGetterImpl :=
  createShapeGetter
    { GetInstanceConfiguration := fun _ => .ok cfgEmptyName, ListShapes := fun _ => .ok [] }

/-- Configuration whose instance-details field is unset. -/
def cfgNoDetails : InstanceConfiguration :=
  { CompartmentId := some "comp-a", InstanceDetails := none }

/-- Getter whose configuration fetch yields cfgNoDetails. -/
def gNoDetails : ShapeGetterImpl :=
  createShapeGetter
    { GetInstanceConfiguration := fun _ => .ok cfgNoDetails, ListShapes := fun _ => .ok [] }

/-- True when an optional rational is absent or nonnegative. -/
def optNonneg (x : Option ℚ) : Bool :=
  match x with
  | none => true
  | some q => decide (0 ≤ q)

/-- True when a flexible override carries only nonnegative values. -/
def shapeConfigNonneg (sc : ShapeConfigDetails) : Bool :=
  optNonneg sc.Ocpus && optNonneg sc.MemoryInGBs

/-- True when a catalog entry carries only nonnegative resource values. -/
def summaryNonneg (x : ShapeSummary) : Bool :=
  optNonneg x.Ocpus && optNonneg x.MemoryInGBs

/-- True when the flexible override reachable from a configuration, if any,
carries only nonnegative values. -/
def configNonneg (cfg : InstanceConfiguration) : Bool :=
  match cfg.InstanceDetails with
  | some (.computeInstanceDetails (some ld)) =>
    match ld.ShapeConfig with
    | some sc => shapeConfigNonneg sc
    | none => true
  | _ => true

/-- A shape sitting in the cache of the gCached fixture. -/
def cachedShape : Shape := { Name := "VM.Cached", CPU := 2, GPU := 0, MemoryInBytes := 2 }

/-- Client whose configuration fetch always fails. -/
def clientRemoteErr : ShapeClient :=
  { GetInstanceConfiguration := fun _ => .error "remote unavailable",
    ListShapes := fun _ => .ok [] }

/-- Getter whose cache already holds a shape for pool-a. -/
def gCached : ShapeGetterImpl :=
  { shapeClient := clientRemoteErr, cache := [("pool-a", cachedShape)] }

/-- Launch details with an override present but no shape name. -/
def ldNoName : LaunchInstanceDetails := { Shape := none, ShapeConfig := some scNone }

/-- Compute configuration carrying ldNoName. -/
def cfgNoName : InstanceConfiguration :=
  { CompartmentId := some "comp-a",
    InstanceDetails := some (.computeInstanceDetails (some ldNoName)) }

/-- Getter whose configuration fetch yields cfgNoName. -/
def gNoName : ShapeGetterImpl :=
  createShapeGetter
    { GetInstanceConfiguration := fun _ => .ok cfgNoName, ListShapes := fun _ => .ok [] }

/-- Catalog entry named VM.A with every attribute present. -/
def entryFull : ShapeSummary :=
  { Shape := some "VM.A", Ocpus := some 5, MemoryInGBs := some 10, Gpus := some 1 }

/-- Catalog entry named VM.A with every attribute absent. -/
def entryNameOnly : ShapeSummary :=
  { Shape := some "VM.A", Ocpus := none, MemoryInGBs := none, Gpus := none }

/-- Launch details naming the fixed shape VM.A (no override). -/
def ldFixedA : LaunchInstanceDetails := { Shape := some "VM.A", ShapeConfig := none }

/-- Compute configuration carrying ldFixedA. -/
def cfgFixedA : InstanceConfiguration :=
  { CompartmentId := some "comp-a",
    InstanceDetails := some (.computeInstanceDetails (some ldFixedA)) }

/-- Fixed-shape getter whose catalog lists entryFull then entryNameOnly. -/
def gFixedBoth : ShapeGetterImpl :=
  createShapeGetter
    { GetInstanceConfiguration := fun _ => .ok cfgFixedA,
      ListShapes := fun _ => .ok [entryFull, entryNameOnly] }

/-- Fixed-shape getter whose catalog lists only entryNameOnly. -/
def gFixedLast : ShapeGetterImpl :=
  createShapeGetter
    { GetInstanceConfiguration := fun _ => .ok cfgFixedA,
      ListShapes := fun _ => .ok [entryNameOnly] }

/-- Fixed-shape getter whose catalog lists entryNameOnly then entryFull. -/
def gFixedRev : ShapeGetterImpl :=
  createShapeGetter
    { GetInstanceConfiguration := fun _ => .ok cfgFixedA,
      ListShapes := fun _ => .ok [entryNameOnly, entryFull] }

/-- Fixed-shape getter whose catalog listing fails. -/
def gListErr : ShapeGetterImpl :=
  createShapeGetter
    { GetInstanceConfiguration := fun _ => .ok cfgFixedA,
      ListShapes := fun _ => .error "listing failed" }

/-- Catalog entry for the fixed shape VM.Standard2.1 of the spec example. -/
def entryStd : ShapeSummary :=
  { Shape := some "VM.Standard2.1", Ocpus := some 1, MemoryInGBs := some 15, Gpus := some 0 }

/-- Launch details naming VM.Standard2.1 (no override). -/
def ldStd : LaunchInstanceDetails := { Shape := some "VM.Standard2.1", ShapeConfig := none }

/-- Compute configuration carrying ldStd. -/
def cfgStd : InstanceConfiguration :=
  { CompartmentId := some "comp-a",
    InstanceDetails := some (.computeInstanceDetails (some ldStd)) }

/-- Fixed-shape getter whose catalog lists exactly entryStd. -/
def gStd : ShapeGetterImpl :=
  createShapeGetter
    { GetInstanceConfiguration := fun _ => .ok cfgStd,
      ListShapes := fun _ => .ok [entryStd] }

/-- Flexible override with a negative OCPU count. -/
def scNeg : ShapeConfigDetails := { Ocpus := some (-1), MemoryInGBs := none }

/-- Launch details naming VM.Neg with the override scNeg. -/
def ldNeg : LaunchInstanceDetails := { Shape := some "VM.Neg", ShapeConfig := some scNeg }

/-- Compute configuration carrying ldNeg. -/
def cfgNeg : InstanceConfiguration :=
  { CompartmentId := some "comp-a",
    InstanceDetails := some (.computeInstanceDetails (some ldNeg)) }

/-- Getter whose configuration fetch yields cfgNeg. -/
def gNeg : ShapeGetterImpl :=
  createShapeGetter
    { GetInstanceConfiguration := fun _ => .ok cfgNeg, ListShapes := fun _ => .ok [] }

/-- Compute configuration whose LaunchDetails pointer is nil. -/
def cfgLdNil : InstanceConfiguration :=
  { CompartmentId := some "comp-a",
    InstanceDetails := some (.computeInstanceDetails none) }

/-- Getter with nil launch details and an empty catalog. -/
def gLdNil : ShapeGetterImpl :=
  createShapeGetter
    { GetInstanceConfiguration := fun _ => .ok cfgLdNil, ListShapes := fun _ => .ok [] }

/-- Getter with nil launch details and a one-entry catalog. -/
def gLdNilCat : ShapeGetterImpl :=
  createShapeGetter
    { GetInstanceConfiguration := fun _ => .ok cfgLdNil, ListShapes := fun _ => .ok [entryStd] }

/-! Theorems. -/

/-- On every branch the resolver returns its receiver state untouched: the
source body of GetInstancePoolShape never reads or writes the cache field. -/
theorem getInstancePoolShape_getterAfter (osf : ShapeGetterImpl) (ip : InstancePool) :
    (getInstancePoolShape osf ip).getterAfter = osf := by
  simp only [getInstancePoolShape, fixedPath, finishResolve]
  repeat' split
  all_goals rfl

/-- Scanning a catalog in which every entry bears a name different from the
target leaves the accumulator untouched. -/
theorem scanCatalog_no_match (l : LaunchInstanceDetails) (t : String)
    (hT : l.Shape = some t) :
    ∀ (items : List ShapeSummary) (s : Shape),
      (∀ x ∈ items, ∃ nm, x.Shape = some nm ∧ nm ≠ t) →
      scanCatalog (some l) items s = .ok s := by
  intro items
  induction items with
  | nil => intro s _; rfl
  | cons x rest ih =>
    intro s hAll
    obtain ⟨nm, hx, hne⟩ := hAll x (List.mem_cons_self x rest)
    simp only [scanCatalog, hx, hT, if_neg hne]
    exact ih s fun y hy => hAll y (List.mem_cons_of_mem x hy)

/-- Appending a matching entry whose three attribute fields are all present
makes the scan result exactly that entry, whatever came before, provided
every earlier entry bears a name (so that the scan reaches the end). -/
theorem scanCatalog_last_full (l : LaunchInstanceDetails) (t : String)
    (hT : l.Shape = some t) (e : ShapeSummary) (o m : ℚ) (g : ℤ)
    (hS : e.Shape = some t) (hO : e.Ocpus = some o) (hM : e.MemoryInGBs = some m)
    (hG : e.Gpus = some g) :
    ∀ (items : List ShapeSummary) (s : Shape),
      (∀ x ∈ items, ∃ nm, x.Shape = some nm) →
      scanCatalog (some l) (items ++ [e]) s =
        .ok { Name := t, CPU := o, GPU := g, MemoryInBytes := m * 1024 * 1024 * 1024 } := by
  intro items
  induction items with
  | nil =>
    intro s _
    simp [List.nil_append, scanCatalog, hS, hT, hO, hM, hG]
  | cons x rest ih =>
    intro s hAll
    obtain ⟨nm, hx⟩ := hAll x (List.mem_cons_self x rest)
    have hrest : ∀ y ∈ rest, ∃ nm2, y.Shape = some nm2 :=
      fun y hy => hAll y (List.mem_cons_of_mem x hy)
    simp only [List.cons_append, scanCatalog, hx, hT]
    by_cases heq : nm = t
    · rw [if_pos heq]; exact ih _ hrest
    · rw [if_neg heq]; exact ih s hrest

/-- A catalog entry with an absent name makes the scan end in a nil
dereference, whatever the launch details. -/
theorem scanCatalog_nil_name (ld : Option LaunchInstanceDetails) :
    ∀ (items : List ShapeSummary) (s : Shape) (x : ShapeSummary),
      x ∈ items → x.Shape = none →
      scanCatalog ld items s = .nilDeref := by
  intro items
  induction items with
  | nil => intro s x hx _; exact absurd hx (List.not_mem_nil x)
  | cons y rest ih =>
    intro s x hx hnone
    rcases List.mem_cons.mp hx with rfl | hmem
    · simp only [scanCatalog, hnone]
    · cases hy : y.Shape with
      | none => simp only [scanCatalog, hy]
      | some nm =>
        cases ld with
        | none => simp only [scanCatalog, hy]
        | some l =>
          cases hl : l.Shape with
          | none => simp only [scanCatalog, hy, hl]
          | some t =>
            simp only [scanCatalog, hy, hl]
            by_cases heq : nm = t
            · rw [if_pos heq]; exact ih _ x hmem hnone
            · rw [if_neg heq]; exact ih s x hmem hnone

/-- With nil launch details, or launch details bearing no shape name, the
scan ends in a nil dereference as soon as it processes one entry. -/
theorem scanCatalog_nil_target (ld : Option LaunchInstanceDetails)
    (hld : ld = none ∨ ∃ l, ld = some l ∧ l.Shape = none)
    (x : ShapeSummary) (items : List ShapeSummary) (s : Shape) :
    scanCatalog ld (x :: items) s = .nilDeref := by
  cases hx : x.Shape with
  | none => simp only [scanCatalog, hx]
  | some nm =>
    rcases hld with rfl | ⟨l, rfl, hl⟩
    · simp only [scanCatalog, hx]
    · simp only [scanCatalog, hx, hl]

/-- An ok result of the final name check is the shape that entered it, and
that shape bears a non-empty name. -/
theorem finishResolve_ok (p : String) (c : List RemoteCall) (osf : ShapeGetterImpl)
    (sh s : Shape) (h : (finishResolve p c osf sh).outcome = .ok s) :
    s = sh ∧ sh.Name ≠ "" := by
  unfold finishResolve at h
  by_cases hn : sh.Name = ""
  · rw [if_pos hn] at h; exact absurd h (by simp)
  · rw [if_neg hn] at h
    simp only [Outcome.ok.injEq] at h
    exact ⟨h.symm, hn⟩

/-- Claim C3: on the flexible path with an explicit OCPU count, CPU is that
count and MemoryInBytes defaults to the count times 1024 cubed; an explicit
memory-in-GB value overrides the default; GPU stays 0. -/
theorem C3_flexible_override (osf : ShapeGetterImpl) (ip : InstancePool) (poolId : String)
    (cfg : InstanceConfiguration) (ld : LaunchInstanceDetails) (sc : ShapeConfigDetails)
    (n : String) (o : ℚ)
    (hId : ip.Id = some poolId)
    (hGet : osf.shapeClient.GetInstanceConfiguration ip.InstanceConfigurationId = .ok cfg)
    (hDet : cfg.InstanceDetails = some (.computeInstanceDetails (some ld)))
    (hSC : ld.ShapeConfig = some sc)
    (hName : ld.Shape = some n) (hn : n ≠ "")
    (hO : sc.Ocpus = some o) :
    (sc.MemoryInGBs = none →
      (getInstancePoolShape osf ip).outcome =
        .ok { Name := n, CPU := o, GPU := 0, MemoryInBytes := o * 1024 * 1024 * 1024 }) ∧
    (∀ m : ℚ, sc.MemoryInGBs = some m →
      (getInstancePoolShape osf ip).outcome =
        .ok { Name := n, CPU := o, GPU := 0, MemoryInBytes := m * 1024 * 1024 * 1024 }) := by
  constructor
  · intro hM
    simp [getInstancePoolShape, hId, hGet, hDet, hSC, hName, hO, hM, emptyShape,
      finishResolve, hn]
  · intro m hM
    simp [getInstancePoolShape, hId, hGet, hDet, hSC, hName, hO, hM, emptyShape,
      finishResolve, hn]

/-- Witness for C3 at the concrete flexible fixture with OCPU 4. -/
theorem C3_flexible_override_witness :
    (getInstancePoolShape gFlex4 poolA).outcome =
      .ok { Name := "VM.Flex", CPU := 4, GPU := 0, MemoryInBytes := 4 * 1024 * 1024 * 1024 } :=
  (C3_flexible_override gFlex4 poolA "pool-a" cfgFlex4 ldFlex4 scFlex4 "VM.Flex" 4
    rfl rfl rfl rfl rfl (by decide) rfl).1 rfl

/-- Claim C7: an unset instance-details field fails with the missing
configuration error naming the pool, and the only remote call issued is the
configuration fetch (no catalog call). -/
theorem C7_missing_details (osf : ShapeGetterImpl) (ip : InstancePool) (poolId : String)
    (cfg : InstanceConfiguration)
    (hId : ip.Id = some poolId)
    (hGet : osf.shapeClient.GetInstanceConfiguration ip.InstanceConfigurationId = .ok cfg)
    (hDet : cfg.InstanceDetails = none) :
    (getInstancePoolShape osf ip).outcome = .err (missingConfigurationMsg poolId) ∧
    (getInstancePoolShape osf ip).remoteCalls =
      [RemoteCall.getInstanceConfigurationCall ip.InstanceConfigurationId] ∧
    ∀ c, RemoteCall.listShapesCall c ∉ (getInstancePoolShape osf ip).remoteCalls := by
  refine ⟨?_, ?_, ?_⟩ <;>
    simp [getInstancePoolShape, hId, hGet, hDet]

/-- Witness for C7 at the concrete fixture with unset instance details. -/
theorem C7_missing_details_witness :
    (getInstancePoolShape gNoDetails poolA).outcome =
      .err (missingConfigurationMsg "pool-a") :=
  (C7_missing_details gNoDetails poolA "pool-a" cfgNoDetails rfl rfl rfl).1

/-- Counterexample to claim C10 as stated: a flexible configuration whose
shape name is set, but set to the empty string, with OCPU count and memory
both absent, does not succeed — it fails with the not-found error. -/
theorem C10_counterexample :
    (getInstancePoolShape gEmptyName poolA).outcome =
      .err (shapeNotFoundMsg "pool-a") ∧
    ∀ s : Shape, (getInstancePoolShape gEmptyName poolA).outcome ≠ .ok s := by
  constructor
  · rfl
  · intro s h
    rw [show (getInstancePoolShape gEmptyName poolA).outcome =
        .err (shapeNotFoundMsg "pool-a") from rfl] at h
    exact Outcome.noConfusion h

/-- Claim C10 (amended): for a flexible configuration whose override is
present, whose shape name is set to a non-empty string, and whose OCPU count
and memory-in-GB are both absent, resolution succeeds with that name and
CPU 0, MemoryInBytes 0, GPU 0, and no catalog call is issued. -/
theorem C10_flexible_defaults (osf : ShapeGetterImpl) (ip : InstancePool) (poolId : String)
    (cfg : InstanceConfiguration) (ld : LaunchInstanceDetails) (sc : ShapeConfigDetails)
    (n : String)
    (hId : ip.Id = some poolId)
    (hGet : osf.shapeClient.GetInstanceConfiguration ip.InstanceConfigurationId = .ok cfg)
    (hDet : cfg.InstanceDetails = some (.computeInstanceDetails (some ld)))
    (hSC : ld.ShapeConfig = some sc)
    (hName : ld.Shape = some n) (hn : n ≠ "")
    (hO : sc.Ocpus = none) (hM : sc.MemoryInGBs = none) :
    (getInstancePoolShape osf ip).outcome =
      .ok { Name := n, CPU := 0, GPU := 0, MemoryInBytes := 0 } ∧
    ∀ c, RemoteCall.listShapesCall c ∉ (getInstancePoolShape osf ip).remoteCalls := by
  constructor
  · simp [getInstancePoolShape, hId, hGet, hDet, hSC, hName, hO, hM, emptyShape,
      finishResolve, hn]
  · intro c
    simp [getInstancePoolShape, hId, hGet, hDet, hSC, hName, hO, hM, emptyShape,
      finishResolve, hn]

/-- Witness for the amended C10 at the concrete name-only fixture. -/
theorem C10_flexible_defaults_witness :
    (getInstancePoolShape gNameOnly poolA).outcome =
      .ok { Name := "VM.N", CPU := 0, GPU := 0, MemoryInBytes := 0 } :=
  (C10_flexible_defaults gNameOnly poolA "pool-a" cfgNameOnly ldNameOnly scNone "VM.N"
    rfl rfl rfl rfl rfl (by decide) rfl rfl).1

/-- Claim C5: on the fixed path a failing catalog listing is not propagated:
the outcome is the not-found error naming the pool, identical to the outcome
with a client whose listing returns an empty catalog. -/
theorem C5_listing_error_swallowed (osf : ShapeGetterImpl) (ip : InstancePool)
    (poolId : String) (cfg : InstanceConfiguration)
    (ld : Option LaunchInstanceDetails) (e : String)
    (hId : ip.Id = some poolId)
    (hGet : osf.shapeClient.GetInstanceConfiguration ip.InstanceConfigurationId = .ok cfg)
    (hDet : cfg.InstanceDetails = some (.computeInstanceDetails ld))
    (hFixed : ld = none ∨ ∃ l, ld = some l ∧ l.ShapeConfig = none)
    (hList : osf.shapeClient.ListShapes cfg.CompartmentId = .error e) :
    (getInstancePoolShape osf ip).outcome = .err (shapeNotFoundMsg poolId) ∧
    (getInstancePoolShape osf ip).outcome =
      (getInstancePoolShape
        { osf with shapeClient :=
            { GetInstanceConfiguration := osf.shapeClient.GetInstanceConfiguration,
              ListShapes := fun _ => .ok [] } } ip).outcome := by
  rcases hFixed with rfl | ⟨l, rfl, hSC⟩
  · constructor
    · simp [getInstancePoolShape, hId, hGet, hDet, fixedPath, hList, scanCatalog,
        emptyShape, finishResolve]
    · simp [getInstancePoolShape, hId, hGet, hDet, fixedPath, hList, scanCatalog,
        emptyShape, finishResolve]
  · constructor
    · simp [getInstancePoolShape, hId, hGet, hDet, hSC, fixedPath, hList, scanCatalog,
        emptyShape, finishResolve]
    · simp [getInstancePoolShape, hId, hGet, hDet, hSC, fixedPath, hList, scanCatalog,
        emptyShape, finishResolve]

/-- Witness for C5 at the fixed-shape fixture whose listing fails. -/
theorem C5_listing_error_swallowed_witness :
    (getInstancePoolShape gListErr poolA).outcome = .err (shapeNotFoundMsg "pool-a") :=
  (C5_listing_error_swallowed gListErr poolA "pool-a" cfgFixedA (some ldFixedA)
    "listing failed" rfl rfl rfl (Or.inr ⟨ldFixedA, rfl, rfl⟩) rfl).1

/-- Claim C6: the single no-match error: the flexible path without a shape
name and the fixed path whose name matches no catalog entry both fail with
the not-found error naming the pool. -/
theorem C6_single_not_found :
    (∀ (osf : ShapeGetterImpl) (ip : InstancePool) (poolId : String)
        (cfg : InstanceConfiguration) (ld : LaunchInstanceDetails) (sc : ShapeConfigDetails),
      ip.Id = some poolId →
      osf.shapeClient.GetInstanceConfiguration ip.InstanceConfigurationId = .ok cfg →
      cfg.InstanceDetails = some (.computeInstanceDetails (some ld)) →
      ld.ShapeConfig = some sc →
      ld.Shape = none →
      (getInstancePoolShape osf ip).outcome = .err (shapeNotFoundMsg poolId)) ∧
    (∀ (osf : ShapeGetterImpl) (ip : InstancePool) (poolId : String)
        (cfg : InstanceConfiguration) (l : LaunchInstanceDetails) (t : String)
        (items : List ShapeSummary),
      ip.Id = some poolId →
      osf.shapeClient.GetInstanceConfiguration ip.InstanceConfigurationId = .ok cfg →
      cfg.InstanceDetails = some (.computeInstanceDetails (some l)) →
      l.ShapeConfig = none →
      l.Shape = some t →
      osf.shapeClient.ListShapes cfg.CompartmentId = .ok items →
      (∀ x ∈ items, ∃ nm, x.Shape = some nm ∧ nm ≠ t) →
      (getInstancePoolShape osf ip).outcome = .err (shapeNotFoundMsg poolId)) := by
  constructor
  · intro osf ip poolId cfg ld sc hId hGet hDet hSC hN
    rcases hO : sc.Ocpus with _ | o <;> rcases hM : sc.MemoryInGBs with _ | m <;>
      simp [getInstancePoolShape, hId, hGet, hDet, hSC, hN, hO, hM, emptyShape, finishResolve]
  · intro osf ip poolId cfg l t items hId hGet hDet hSC hT hList hAll
    have hscan := scanCatalog_no_match l t hT items emptyShape hAll
    simp only [emptyShape] at hscan
    simp [getInstancePoolShape, hId, hGet, hDet, hSC, fixedPath, hList, hscan,
      emptyShape, finishResolve]

/-- Witness for C6 at the flexible fixture carrying no shape name. -/
theorem C6_single_not_found_witness :
    (getInstancePoolShape gNoName poolA).outcome = .err (shapeNotFoundMsg "pool-a") :=
  C6_single_not_found.1 gNoName poolA "pool-a" cfgNoName ldNoName scNone rfl rfl rfl rfl rfl

/-- Claim C1 exhibit: the resolver never consults its cache.  With the pool
identifier present in the cache, the call still issues the remote
configuration fetch and returns its (here failing) result instead of the
cached shape. -/
theorem C1_cache_ignored :
    cacheLookup gCached.cache "pool-a" = some cachedShape ∧
    poolA.Id = some "pool-a" ∧
    (getInstancePoolShape gCached poolA).remoteCalls =
      [RemoteCall.getInstanceConfigurationCall (some "cfg-a")] ∧
    (getInstancePoolShape gCached poolA).outcome = .err "remote unavailable" ∧
    (getInstancePoolShape gCached poolA).outcome ≠ .ok cachedShape := by
  refine ⟨rfl, rfl, rfl, rfl, ?_⟩
  intro h
  rw [show (getInstancePoolShape gCached poolA).outcome = .err "remote unavailable" from
    rfl] at h
  exact Outcome.noConfusion h

/-- Claim C2 exhibit: no call to the resolver ever modifies the cache, and in
particular a successful resolution inserts nothing: after the successful
flexible resolution of pool-a the cache is still empty. -/
theorem C2_cache_never_populated :
    (∀ (osf : ShapeGetterImpl) (ip : InstancePool),
        (getInstancePoolShape osf ip).getterAfter.cache = osf.cache) ∧
    (getInstancePoolShape gFlex4 poolA).outcome =
      .ok { Name := "VM.Flex", CPU := 4, GPU := 0, MemoryInBytes := 4 * 1024 * 1024 * 1024 } ∧
    (getInstancePoolShape gFlex4 poolA).getterAfter.cache = [] := by
  refine ⟨?_, rfl, rfl⟩
  intro osf ip
  rw [getInstancePoolShape_getterAfter]

/-- Under either guard failure of line 96 (nil launch details, or launch
details with nil shape config) the resolver takes the fixed branch. -/
theorem getInstancePoolShape_fixed (osf : ShapeGetterImpl) (ip : InstancePool)
    (poolId : String) (cfg : InstanceConfiguration) (ld : Option LaunchInstanceDetails)
    (hId : ip.Id = some poolId)
    (hGet : osf.shapeClient.GetInstanceConfiguration ip.InstanceConfigurationId = .ok cfg)
    (hDet : cfg.InstanceDetails = some (.computeInstanceDetails ld))
    (hFixed : ld = none ∨ ∃ l, ld = some l ∧ l.ShapeConfig = none) :
    getInstancePoolShape osf ip =
      fixedPath osf poolId
        [RemoteCall.getInstanceConfigurationCall ip.InstanceConfigurationId]
        cfg.CompartmentId ld := by
  rcases hFixed with rfl | ⟨l, rfl, hSC⟩
  · simp [getInstancePoolShape, hId, hGet, hDet]
  · simp [getInstancePoolShape, hId, hGet, hDet, hSC]

/-- Counterexample to claim C4 as stated: two catalogs sharing the same last
matching entry (one bearing only a name) produce different shapes, because a
match overwrites only the fields it carries; the last match therefore does
not determine the returned Shape. -/
theorem C4_counterexample :
    (getInstancePoolShape gFixedBoth poolA).outcome =
      .ok { Name := "VM.A", CPU := 5, GPU := 1, MemoryInBytes := 10 * 1024 * 1024 * 1024 } ∧
    (getInstancePoolShape gFixedLast poolA).outcome =
      .ok { Name := "VM.A", CPU := 0, GPU := 0, MemoryInBytes := 0 } ∧
    (getInstancePoolShape gFixedBoth poolA).outcome ≠
      (getInstancePoolShape gFixedLast poolA).outcome := by
  refine ⟨rfl, rfl, ?_⟩
  intro h
  rw [show (getInstancePoolShape gFixedBoth poolA).outcome =
        .ok { Name := "VM.A", CPU := 5, GPU := 1,
              MemoryInBytes := 10 * 1024 * 1024 * 1024 } from rfl,
      show (getInstancePoolShape gFixedLast poolA).outcome =
        .ok { Name := "VM.A", CPU := 0, GPU := 0, MemoryInBytes := 0 } from rfl] at h
  simp only [Outcome.ok.injEq, Shape.mk.injEq] at h
  exact absurd h.2.1 (by norm_num)

/-- Claim C4 (amended): the fixed path scans for entries whose name equals
the launch-details shape name and populates the present fields of each match
in iteration order, later matches overwriting field by field; the spec
example VM.Standard2.1 resolves accordingly, and a last matching entry
carrying OCPU, memory and GPU all present determines the returned Shape
regardless of earlier entries. -/
theorem C4_fixed_scan :
    (getInstancePoolShape gStd poolA).outcome =
      .ok { Name := "VM.Standard2.1", CPU := 1, GPU := 0,
            MemoryInBytes := 15 * 1024 * 1024 * 1024 } ∧
    (∀ (osf : ShapeGetterImpl) (ip : InstancePool) (poolId : String)
        (cfg : InstanceConfiguration) (l : LaunchInstanceDetails) (t : String)
        (items : List ShapeSummary) (e : ShapeSummary) (o m : ℚ) (g : ℤ),
      ip.Id = some poolId →
      osf.shapeClient.GetInstanceConfiguration ip.InstanceConfigurationId = .ok cfg →
      cfg.InstanceDetails = some (.computeInstanceDetails (some l)) →
      l.ShapeConfig = none →
      l.Shape = some t → t ≠ "" →
      osf.shapeClient.ListShapes cfg.CompartmentId = .ok (items ++ [e]) →
      (∀ x ∈ items, ∃ nm, x.Shape = some nm) →
      e.Shape = some t → e.Ocpus = some o → e.MemoryInGBs = some m → e.Gpus = some g →
      (getInstancePoolShape osf ip).outcome =
        .ok { Name := t, CPU := o, GPU := g, MemoryInBytes := m * 1024 * 1024 * 1024 }) := by
  constructor
  · rfl
  · intro osf ip poolId cfg l t items e o m g hId hGet hDet hSC hT htne hList hItems hS hO hM hG
    have hscan := scanCatalog_last_full l t hT e o m g hS hO hM hG items emptyShape hItems
    rw [getInstancePoolShape_fixed osf ip poolId cfg (some l) hId hGet hDet
      (Or.inr ⟨l, rfl, hSC⟩)]
    simp [fixedPath, hList, hscan, finishResolve, htne]

/-- Witness for the amended C4: with the partial match first and the fully
specified match last, the result is the last entry. -/
theorem C4_fixed_scan_witness :
    (getInstancePoolShape gFixedRev poolA).outcome =
      .ok { Name := "VM.A", CPU := 5, GPU := 1, MemoryInBytes := 10 * 1024 * 1024 * 1024 } :=
  C4_fixed_scan.2 gFixedRev poolA "pool-a" cfgFixedA ldFixedA "VM.A"
    [entryNameOnly] entryFull 5 10 1 rfl rfl rfl rfl rfl (by decide) rfl
    (by
      intro x hx
      simp only [List.mem_singleton] at hx
      subst hx
      exact ⟨"VM.A", rfl⟩)
    rfl rfl rfl rfl

/-- Counterexample to claim C9 as stated: a compute configuration with nil
launch details and an empty catalog does not panic — the scan never runs and
resolution returns the not-found error. -/
theorem C9_counterexample :
    (getInstancePoolShape gLdNil poolA).outcome = .err (shapeNotFoundMsg "pool-a") ∧
    (getInstancePoolShape gLdNil poolA).outcome ≠ .nilDeref := by
  refine ⟨rfl, ?_⟩
  intro h
  rw [show (getInstancePoolShape gLdNil poolA).outcome =
      .err (shapeNotFoundMsg "pool-a") from rfl] at h
  exact Outcome.noConfusion h

/-- Claim C9 (amended): on the fixed path the dereferences of the launch
details, of their shape name, and of each catalog entry name are unguarded;
they are reached exactly when the scan processes an entry.  With a non-empty
listed catalog, nil launch details or a nil launch-details shape name panic,
and a catalog entry with a nil name panics whatever the launch details. -/
theorem C9_nil_dereference (osf : ShapeGetterImpl) (ip : InstancePool) (poolId : String)
    (cfg : InstanceConfiguration) (ld : Option LaunchInstanceDetails)
    (items : List ShapeSummary)
    (hId : ip.Id = some poolId)
    (hGet : osf.shapeClient.GetInstanceConfiguration ip.InstanceConfigurationId = .ok cfg)
    (hDet : cfg.InstanceDetails = some (.computeInstanceDetails ld))
    (hFixed : ld = none ∨ ∃ l, ld = some l ∧ l.ShapeConfig = none)
    (hList : osf.shapeClient.ListShapes cfg.CompartmentId = .ok items) :
    (ld = none → items ≠ [] → (getInstancePoolShape osf ip).outcome = .nilDeref) ∧
    (∀ l, ld = some l → l.Shape = none → items ≠ [] →
      (getInstancePoolShape osf ip).outcome = .nilDeref) ∧
    (∀ x ∈ items, x.Shape = none → (getInstancePoolShape osf ip).outcome = .nilDeref) := by
  have hred := getInstancePoolShape_fixed osf ip poolId cfg ld hId hGet hDet hFixed
  refine ⟨?_, ?_, ?_⟩
  · rintro rfl hne
    obtain ⟨x, rest, rfl⟩ := List.exists_cons_of_ne_nil hne
    have hscan := scanCatalog_nil_target none (Or.inl rfl) x rest emptyShape
    rw [hred]
    simp [fixedPath, hList, hscan]
  · rintro l rfl hShape hne
    obtain ⟨x, rest, rfl⟩ := List.exists_cons_of_ne_nil hne
    have hscan := scanCatalog_nil_target (some l) (Or.inr ⟨l, rfl, hShape⟩) x rest emptyShape
    rw [hred]
    simp [fixedPath, hList, hscan]
  · intro x hx hxs
    have hscan := scanCatalog_nil_name ld items emptyShape x hx hxs
    rw [hred]
    simp [fixedPath, hList, hscan]

/-- Witness for the amended C9: nil launch details with a one-entry catalog
panic. -/
theorem C9_nil_dereference_witness :
    (getInstancePoolShape gLdNilCat poolA).outcome = .nilDeref :=
  (C9_nil_dereference gLdNilCat poolA "pool-a" cfgLdNil none [entryStd]
    rfl rfl rfl (Or.inl rfl) rfl).1 rfl (by simp)

/-- The scan preserves nonnegativity of CPU and memory when every catalog
entry carries only nonnegative values. -/
theorem scanCatalog_nonneg (ld : Option LaunchInstanceDetails) :
    ∀ (items : List ShapeSummary) (s s2 : Shape),
      items.all summaryNonneg = true →
      0 ≤ s.CPU → 0 ≤ s.MemoryInBytes →
      scanCatalog ld items s = .ok s2 →
      0 ≤ s2.CPU ∧ 0 ≤ s2.MemoryInBytes := by
  intro items
  induction items with
  | nil =>
    intro s s2 _ hc hm hscan
    simp only [scanCatalog, Outcome.ok.injEq] at hscan
    subst hscan
    exact ⟨hc, hm⟩
  | cons x rest ih =>
    intro s s2 hall hc hm hscan
    simp only [List.all_cons, Bool.and_eq_true] at hall
    obtain ⟨hx1, hrest⟩ := hall
    have hOQ : ∀ q, x.Ocpus = some q → 0 ≤ q := by
      intro q hq
      simp only [summaryNonneg, Bool.and_eq_true, optNonneg, hq, decide_eq_true_eq] at hx1
      exact hx1.1
    have hMQ : ∀ q, x.MemoryInGBs = some q → 0 ≤ q := by
      intro q hq
      simp only [summaryNonneg, Bool.and_eq_true, optNonneg, hq, decide_eq_true_eq] at hx1
      exact hx1.2
    have q1024 : (0 : ℚ) ≤ 1024 := by norm_num
    cases hxs : x.Shape with
    | none => simp [scanCatalog, hxs] at hscan
    | some nm =>
      cases ld with
      | none => simp [scanCatalog, hxs] at hscan
      | some l =>
        cases hl : l.Shape with
        | none => simp [scanCatalog, hxs, hl] at hscan
        | some t =>
          simp only [scanCatalog, hxs, hl] at hscan
          by_cases heq : nm = t
          · rw [if_pos heq] at hscan
            rcases hO2 : x.Ocpus with _ | o <;> rcases hM2 : x.MemoryInGBs with _ | q <;>
              rcases hG2 : x.Gpus with _ | g <;>
              simp only [hO2, hM2, hG2] at hscan <;>
              refine ih _ s2 hrest ?_ ?_ hscan <;>
              first
                | exact hc
                | exact hm
                | exact hOQ _ hO2
                | exact mul_nonneg (mul_nonneg (mul_nonneg (hMQ _ hM2) q1024) q1024) q1024
          · rw [if_neg heq] at hscan
            exact ih s s2 hrest hc hm hscan

/-- An ok outcome of the fixed branch bears a non-empty name. -/
theorem fixedPath_ok_name (osf : ShapeGetterImpl) (p : String) (c : List RemoteCall)
    (comp : Option String) (ld : Option LaunchInstanceDetails) (s : Shape)
    (hs : (fixedPath osf p c comp ld).outcome = .ok s) : s.Name ≠ "" := by
  rcases hList : osf.shapeClient.ListShapes comp with e | items
  · simp only [fixedPath, hList, scanCatalog] at hs
    obtain ⟨_, hname⟩ := finishResolve_ok _ _ _ _ _ hs
    exact absurd rfl hname
  · simp only [fixedPath, hList] at hs
    cases hscan : scanCatalog ld items emptyShape with
    | ok s2 =>
      rw [hscan] at hs
      obtain ⟨hseq, hname⟩ := finishResolve_ok _ _ _ _ _ hs
      rw [hseq]
      exact hname
    | err e2 => rw [hscan] at hs; simp at hs
    | nilDeref => rw [hscan] at hs; simp at hs

/-- An ok outcome of the fixed branch has nonnegative CPU and memory when
every listed catalog entry carries only nonnegative values. -/
theorem fixedPath_ok_nonneg (osf : ShapeGetterImpl) (p : String) (c : List RemoteCall)
    (comp : Option String) (ld : Option LaunchInstanceDetails) (s : Shape)
    (hs : (fixedPath osf p c comp ld).outcome = .ok s)
    (hCat : ∀ items, osf.shapeClient.ListShapes comp = .ok items →
      items.all summaryNonneg = true) :
    0 ≤ s.CPU ∧ 0 ≤ s.MemoryInBytes := by
  rcases hList : osf.shapeClient.ListShapes comp with e | items
  · simp only [fixedPath, hList, scanCatalog] at hs
    obtain ⟨hseq, _⟩ := finishResolve_ok _ _ _ _ _ hs
    rw [hseq]
    exact ⟨le_refl 0, le_refl 0⟩
  · simp only [fixedPath, hList] at hs
    cases hscan : scanCatalog ld items emptyShape with
    | ok s2 =>
      rw [hscan] at hs
      obtain ⟨hseq, _⟩ := finishResolve_ok _ _ _ _ _ hs
      rw [hseq]
      exact scanCatalog_nonneg ld items emptyShape s2 (hCat items hList)
        (le_refl 0) (le_refl 0) hscan
    | err e2 => rw [hscan] at hs; simp at hs
    | nilDeref => rw [hscan] at hs; simp at hs

/-- Every successfully resolved shape bears a non-empty name: the final
check of lines 131-135 guards every return. -/
theorem getInstancePoolShape_ok_name (osf : ShapeGetterImpl) (ip : InstancePool) (s : Shape)
    (hs : (getInstancePoolShape osf ip).outcome = .ok s) : s.Name ≠ "" := by
  rcases hId : ip.Id with _ | pid
  · simp [getInstancePoolShape, hId] at hs
  · rcases hGet : osf.shapeClient.GetInstanceConfiguration ip.InstanceConfigurationId
      with e | cfg
    · simp [getInstancePoolShape, hId, hGet] at hs
    · rcases hDet : cfg.InstanceDetails with _ | v
      · simp [getInstancePoolShape, hId, hGet, hDet] at hs
      · rcases v with ld | _
        · rcases ld with _ | l
          · simp only [getInstancePoolShape, hId, hGet, hDet] at hs
            exact fixedPath_ok_name _ _ _ _ _ _ hs
          · rcases hSC : l.ShapeConfig with _ | sc
            · simp only [getInstancePoolShape, hId, hGet, hDet, hSC] at hs
              exact fixedPath_ok_name _ _ _ _ _ _ hs
            · simp only [getInstancePoolShape, hId, hGet, hDet, hSC] at hs
              obtain ⟨hseq, hname⟩ := finishResolve_ok _ _ _ _ _ hs
              rw [hseq]
              exact hname
        · simp [getInstancePoolShape, hId, hGet, hDet] at hs

/-- Every successfully resolved shape has nonnegative CPU and memory when
all values supplied by the remote endpoints are nonnegative. -/
theorem getInstancePoolShape_ok_nonneg (osf : ShapeGetterImpl) (ip : InstancePool)
    (s : Shape)
    (hs : (getInstancePoolShape osf ip).outcome = .ok s)
    (hCfg : ∀ cfg, osf.shapeClient.GetInstanceConfiguration ip.InstanceConfigurationId =
      .ok cfg → configNonneg cfg = true)
    (hCat : ∀ c items, osf.shapeClient.ListShapes c = .ok items →
      items.all summaryNonneg = true) :
    0 ≤ s.CPU ∧ 0 ≤ s.MemoryInBytes := by
  rcases hId : ip.Id with _ | pid
  · simp [getInstancePoolShape, hId] at hs
  · rcases hGet : osf.shapeClient.GetInstanceConfiguration ip.InstanceConfigurationId
      with e | cfg
    · simp [getInstancePoolShape, hId, hGet] at hs
    · rcases hDet : cfg.InstanceDetails with _ | v
      · simp [getInstancePoolShape, hId, hGet, hDet] at hs
      · rcases v with ld | _
        · rcases ld with _ | l
          · simp only [getInstancePoolShape, hId, hGet, hDet] at hs
            exact fixedPath_ok_nonneg _ _ _ _ _ _ hs fun items h => hCat _ items h
          · rcases hSC : l.ShapeConfig with _ | sc
            · simp only [getInstancePoolShape, hId, hGet, hDet, hSC] at hs
              exact fixedPath_ok_nonneg _ _ _ _ _ _ hs fun items h => hCat _ items h
            · have hcn := hCfg cfg hGet
              simp only [configNonneg, hDet, hSC, shapeConfigNonneg,
                Bool.and_eq_true] at hcn
              obtain ⟨hO, hM⟩ := hcn
              have hOQ : ∀ q, sc.Ocpus = some q → 0 ≤ q := by
                intro q hq
                rw [hq] at hO
                simp only [optNonneg, decide_eq_true_eq] at hO
                exact hO
              have hMQ : ∀ q, sc.MemoryInGBs = some q → 0 ≤ q := by
                intro q hq
                rw [hq] at hM
                simp only [optNonneg, decide_eq_true_eq] at hM
                exact hM
              have q1024 : (0 : ℚ) ≤ 1024 := by norm_num
              simp only [getInstancePoolShape, hId, hGet, hDet, hSC] at hs
              rcases hNm : l.Shape with _ | n <;> rcases hOc : sc.Ocpus with _ | o <;>
                rcases hMe : sc.MemoryInGBs with _ | m <;>
                simp only [hNm, hOc, hMe] at hs <;>
                obtain ⟨hseq, _⟩ := finishResolve_ok _ _ _ _ _ hs <;>
                rw [hseq] <;>
                constructor <;>
                first
                  | exact le_refl 0
                  | exact hOQ _ hOc
                  | exact mul_nonneg (mul_nonneg (mul_nonneg (hOQ _ hOc) q1024) q1024) q1024
                  | exact mul_nonneg (mul_nonneg (mul_nonneg (hMQ _ hMe) q1024) q1024) q1024
        · simp [getInstancePoolShape, hId, hGet, hDet] at hs

/-- Counterexample to claim C8 as stated: the code does not validate signs,
so a remote flexible override carrying a negative OCPU count yields a
successfully returned Shape with negative CPU and negative memory. -/
theorem C8_counterexample :
    (getInstancePoolShape gNeg poolA).outcome =
      .ok { Name := "VM.Neg", CPU := -1, GPU := 0,
            MemoryInBytes := -1 * 1024 * 1024 * 1024 } ∧
    ({ Name := "VM.Neg", CPU := -1, GPU := 0,
       MemoryInBytes := -1 * 1024 * 1024 * 1024 } : Shape).CPU < 0 := by
  constructor
  · rfl
  · norm_num

/-- Claim C8 (amended): every successfully resolved shape bears a non-empty
name, and its CPU and MemoryInBytes are nonnegative provided every OCPU and
memory value supplied by the remote configuration and catalog is
nonnegative. -/
theorem C8_success_invariants (osf : ShapeGetterImpl) (ip : InstancePool) (s : Shape)
    (hs : (getInstancePoolShape osf ip).outcome = .ok s) :
    s.Name ≠ "" ∧
    ((∀ cfg, osf.shapeClient.GetInstanceConfiguration ip.InstanceConfigurationId =
        .ok cfg → configNonneg cfg = true) →
     (∀ c items, osf.shapeClient.ListShapes c = .ok items →
        items.all summaryNonneg = true) →
     0 ≤ s.CPU ∧ 0 ≤ s.MemoryInBytes) :=
  ⟨getInstancePoolShape_ok_name osf ip s hs,
   fun hCfg hCat => getInstancePoolShape_ok_nonneg osf ip s hs hCfg hCat⟩

/-- Witness for the amended C8 at the concrete flexible fixture. -/
theorem C8_success_invariants_witness :
    shapeFlex4.Name ≠ "" ∧ 0 ≤ shapeFlex4.CPU ∧ 0 ≤ shapeFlex4.MemoryInBytes :=
  ⟨(C8_success_invariants gFlex4 poolA shapeFlex4 rfl).1,
   (C8_success_invariants gFlex4 poolA shapeFlex4 rfl).2
     (by
       intro cfg h
       have h2 : Except.ok (ε := String) cfgFlex4 = Except.ok cfg := h
       injection h2 with h3
       rw [← h3]
       simp [configNonneg, cfgFlex4, ldFlex4, scFlex4, shapeConfigNonneg, optNonneg])
     (by
       intro c items h
       have h2 : Except.ok (ε := String) ([] : List ShapeSummary) = Except.ok items := h
       injection h2 with h3
       rw [← h3]
       rfl)⟩

end Oci
